import Mathlib

/-!
Verification of the utf8dok CI/CD infrastructure script
(`src/architecture/infrastructure/ci-cd.py`).

The script builds a GitHub Actions workflow document from a small typed
configuration (`CIConfig`) and exposes a tiny CLI (`generate` / `validate`).
We embed the document as a JSON-like value tree (Python dicts keep insertion
order, so objects are association lists in insertion order), the configuration
as a structure with the source's defaults, and the effectful CLI layer as
functions returning an exit code together with an ordered trace of effects.
-/

/-- JSON-like document values: the nested dict/list/str structure produced by
`CIConfig.to_github_actions`. Objects are association lists in Python dict
insertion order. -/
inductive Value where
  | str : String → Value
  | arr : List Value → Value
  | obj : List (String × Value) → Value
deriving Repr

/-- Lookup of a key in an association list (first match, as in a Python dict
whose keys are unique). -/
def lookupField : List (String × Value) → String → Option Value
  | [], _ => none
  | (k, v) :: rest, key => if k = key then some v else lookupField rest key

/-- Lookup of a key in an object value; `none` on non-objects. -/
def Value.lookup : Value → String → Option Value
  | .obj kvs, key => lookupField kvs key
  | _, _ => none

/-- Lookup along a path of keys through nested objects. -/
def Value.getPath : Value → List String → Option Value
  | v, [] => some v
  | v, k :: ks =>
    match v.lookup k with
    | some w => Value.getPath w ks
    | none => none

/-- The ordered key list of an object value. -/
def Value.objKeys : Value → Option (List String)
  | .obj kvs => some (kvs.map Prod.fst)
  | _ => none

/-- The length of an array value. -/
def Value.arrLen : Value → Option Nat
  | .arr vs => some vs.length
  | _ => none

mutual
/-- Whether the key occurs anywhere in the value tree (at any depth). -/
def Value.hasKeyDeep (key : String) : Value → Bool
  | .str _ => false
  | .arr vs => hasKeyElems key vs
  | .obj kvs => hasKeyFields key kvs

/-- Whether the key occurs in the field list or anywhere below it. -/
def hasKeyFields (key : String) : List (String × Value) → Bool
  | [] => false
  | (k, v) :: rest => k = key || Value.hasKeyDeep key v || hasKeyFields key rest

/-- Whether the key occurs anywhere in one of the listed values. -/
def hasKeyElems (key : String) : List Value → Bool
  | [] => false
  | v :: rest => Value.hasKeyDeep key v || hasKeyElems key rest
end

/-- `CIConfig` from ci-cd.py: a dataclass with defaulted fields
(`rust_version="stable"`, `rust_msrv="1.70.0"`, three runner platforms).
The Python tuple of platforms is embedded as a list. -/
structure CIConfig where
  rust_version : String := "stable"
  rust_msrv : String := "1.70.0"
  platforms : List String := ["ubuntu-latest", "macos-latest", "windows-latest"]

/-- `CIConfig.to_github_actions`: the literal workflow-document builder from
ci-cd.py, transcribed field by field (`$\x7b\x7b ... \x7d\x7d` are the GitHub
expression markers, written with escaped braces). -/
def CIConfig.to_github_actions (self : CIConfig) : Value :=
  .obj [
    ("name", .str "CI"),
    ("on", .obj [
      ("push", .obj [("branches", .arr [.str "main"])]),
      ("pull_request", .obj [("branches", .arr [.str "main"])])]),
    ("env", .obj [("CARGO_TERM_COLOR", .str "always")]),
    ("jobs", .obj [
      ("test", .obj [
        ("name", .str "Test"),
        ("runs-on", .str "$\x7b\x7b matrix.os \x7d\x7d"),
        ("strategy", .obj [
          ("matrix", .obj [
            ("os", .arr (self.platforms.map Value.str)),
            ("rust", .arr [.str self.rust_version, .str self.rust_msrv])])]),
        ("steps", .arr [
          .obj [("uses", .str "actions/checkout@v4")],
          .obj [("name", .str "Install Rust"),
                ("uses", .str "dtolnay/rust-toolchain@master"),
                ("with", .obj [("toolchain", .str "$\x7b\x7b matrix.rust \x7d\x7d")])],
          .obj [("name", .str "Build"), ("run", .str "cargo build --workspace")],
          .obj [("name", .str "Test"), ("run", .str "cargo test --workspace")]])]),
      ("lint", .obj [
        ("name", .str "Lint"),
        ("runs-on", .str "ubuntu-latest"),
        ("steps", .arr [
          .obj [("uses", .str "actions/checkout@v4")],
          .obj [("name", .str "Install Rust"),
                ("uses", .str "dtolnay/rust-toolchain@stable"),
                ("with", .obj [("components", .str "rustfmt, clippy")])],
          .obj [("name", .str "Format"), ("run", .str "cargo fmt --all -- --check")],
          .obj [("name", .str "Clippy"),
                ("run", .str "cargo clippy --workspace -- -D warnings")]])]),
      ("wasm", .obj [
        ("name", .str "WASM Build"),
        ("runs-on", .str "ubuntu-latest"),
        ("steps", .arr [
          .obj [("uses", .str "actions/checkout@v4")],
          .obj [("name", .str "Install Rust"),
                ("uses", .str "dtolnay/rust-toolchain@stable"),
                ("with", .obj [("targets", .str "wasm32-unknown-unknown")])],
          .obj [("name", .str "Install wasm-pack"),
                ("run", .str "cargo install wasm-pack")],
          .obj [("name", .str "Build WASM"),
                ("run", .str "wasm-pack build crates/utf8dok-wasm --target web")]])])])]

/-- Observable effects of the script's outer layer. `print` is a line written
to standard output; `mkdirParentsOf p` is `Path(p).parent.mkdir(parents=True,
exist_ok=True)`; `persist p d` is a request to the external writer to
serialize document `d` to path `p` (the interface the spec describes; the
code never emits it). -/
inductive Effect where
  | print : String → Effect
  | mkdirParentsOf : String → Effect
  | persist : String → Value → Effect

/-- Whether an effect is a persistence request to the external writer. -/
def Effect.isPersist : Effect → Bool
  | .persist _ _ => true
  | _ => false

/-- The module docstring of ci-cd.py, printed by `main` when no command is
supplied (`print(__doc__)`). -/
def moduleDoc : String :=
  "\nutf8dok CI/CD Infrastructure as Code\n\nThis script generates and manages CI/CD pipeline configurations.\nCurrently supports GitHub Actions, with extensibility for other platforms.\n\nUsage:\n    python ci-cd.py generate    # Generate CI configuration\n    python ci-cd.py validate    # Validate existing configuration\n"

/-- `generate_workflow` from ci-cd.py: builds the default config, renders the
workflow into a local variable that is never used again, creates the output
path's parent directories, and prints the three summary lines. Returns the
ordered effect trace. -/
def generate_workflow (output_path : String) : List Effect :=
  let config : CIConfig := {}
  let _workflow := config.to_github_actions
  [Effect.mkdirParentsOf output_path,
   Effect.print ("Generated CI configuration for: "
     ++ String.intercalate ", " config.platforms),
   Effect.print ("Rust versions: " ++ config.rust_version
     ++ ", MSRV: " ++ config.rust_msrv),
   Effect.print ("Output would be written to: " ++ output_path)]

/-- `main` from ci-cd.py: takes `sys.argv` (program name first) and returns
the exit code together with the effect trace. Fewer than two arguments prints
the module docstring and exits 1; `generate` runs `generate_workflow` on the
fixed workflow path and exits 0; `validate` prints a stub message and exits 0;
anything else prints an unknown-command message and exits 1. -/
def CiCd.main : List String → Nat × List Effect
  | _ :: command :: _ =>
    if command = "generate" then
      (0, generate_workflow ".github/workflows/ci.yml")
    else if command = "validate" then
      (0, [Effect.print "Validation not yet implemented"])
    else
      (1, [Effect.print ("Unknown command: " ++ command)])
  | _ => (1, [Effect.print moduleDoc])

/-- C1: for every configuration, the test job's `rust` matrix dimension is
exactly the two-element list `[rust_version, rust_msrv]` — two entries in that
order, with no deduplication even when the two strings coincide. -/
theorem test_matrix_rust_two_entries (c : CIConfig) :
    c.to_github_actions.getPath ["jobs", "test", "strategy", "matrix", "rust"]
      = some (Value.arr [Value.str c.rust_version, Value.str c.rust_msrv]) := rfl

/-- C2: for every configuration the test job's `os` matrix dimension is the
platform list itself, in order and cardinality; in particular an empty
platform list renders (to an empty dimension) rather than being rejected. -/
theorem test_matrix_os_equals_platforms :
    (∀ c : CIConfig,
      c.to_github_actions.getPath ["jobs", "test", "strategy", "matrix", "os"]
        = some (Value.arr (c.platforms.map Value.str)))
    ∧ ({ platforms := [] : CIConfig }.to_github_actions.getPath
        ["jobs", "test", "strategy", "matrix", "os"] = some (Value.arr [])) :=
  ⟨fun _ => rfl, rfl⟩

/-- C5: for every configuration, each job's step sequence is the fixed
authored literal — test: checkout, install toolchain, build, test; lint:
checkout, install toolchain, format check, lint; wasm: checkout, install
toolchain, install wasm-pack, build — so no configuration change reorders
any job's steps. -/
theorem job_steps_fixed_order (c : CIConfig) :
    (c.to_github_actions.getPath ["jobs", "test", "steps"]
      = some (.arr [
        .obj [("uses", .str "actions/checkout@v4")],
        .obj [("name", .str "Install Rust"),
              ("uses", .str "dtolnay/rust-toolchain@master"),
              ("with", .obj [("toolchain", .str "$\x7b\x7b matrix.rust \x7d\x7d")])],
        .obj [("name", .str "Build"), ("run", .str "cargo build --workspace")],
        .obj [("name", .str "Test"), ("run", .str "cargo test --workspace")]]))
    ∧ (c.to_github_actions.getPath ["jobs", "lint", "steps"]
      = some (.arr [
        .obj [("uses", .str "actions/checkout@v4")],
        .obj [("name", .str "Install Rust"),
              ("uses", .str "dtolnay/rust-toolchain@stable"),
              ("with", .obj [("components", .str "rustfmt, clippy")])],
        .obj [("name", .str "Format"), ("run", .str "cargo fmt --all -- --check")],
        .obj [("name", .str "Clippy"),
              ("run", .str "cargo clippy --workspace -- -D warnings")]]))
    ∧ (c.to_github_actions.getPath ["jobs", "wasm", "steps"]
      = some (.arr [
        .obj [("uses", .str "actions/checkout@v4")],
        .obj [("name", .str "Install Rust"),
              ("uses", .str "dtolnay/rust-toolchain@stable"),
              ("with", .obj [("targets", .str "wasm32-unknown-unknown")])],
        .obj [("name", .str "Install wasm-pack"),
              ("run", .str "cargo install wasm-pack")],
        .obj [("name", .str "Build WASM"),
              ("run", .str "wasm-pack build crates/utf8dok-wasm --target web")]])) :=
  ⟨rfl, rfl, rfl⟩

/-- C6: for every configuration, neither the lint job nor the wasm job
carries a matrix: no `strategy` and no `matrix` key occurs anywhere in either
job's subtree, and each job's top-level keys are exactly
name, runs-on, steps. -/
theorem lint_wasm_not_matrixed (c : CIConfig) :
    ((c.to_github_actions.getPath ["jobs", "lint"]).map
        (fun j => j.hasKeyDeep "matrix" || j.hasKeyDeep "strategy") = some false)
    ∧ ((c.to_github_actions.getPath ["jobs", "wasm"]).map
        (fun j => j.hasKeyDeep "matrix" || j.hasKeyDeep "strategy") = some false)
    ∧ ((c.to_github_actions.getPath ["jobs", "lint"]).bind Value.objKeys
        = some ["name", "runs-on", "steps"])
    ∧ ((c.to_github_actions.getPath ["jobs", "wasm"]).bind Value.objKeys
        = some ["name", "runs-on", "steps"]) := by
  refine ⟨?_, ?_, rfl, rfl⟩ <;>
    simp [CIConfig.to_github_actions, Value.getPath, Value.lookup, lookupField,
      Value.hasKeyDeep, hasKeyFields, hasKeyElems]

/-- C7: the default configuration (stable, 1.70.0, the three platforms)
renders a document whose jobs are exactly test, lint, wasm, with the test
matrix having an os dimension of size 3 and a rust dimension of size 2. -/
theorem default_render_scenario :
    ({} : CIConfig).rust_version = "stable"
    ∧ ({} : CIConfig).rust_msrv = "1.70.0"
    ∧ ({} : CIConfig).platforms = ["ubuntu-latest", "macos-latest", "windows-latest"]
    ∧ ((({} : CIConfig).to_github_actions.getPath ["jobs"]).bind Value.objKeys
        = some ["test", "lint", "wasm"])
    ∧ ((({} : CIConfig).to_github_actions.getPath
          ["jobs", "test", "strategy", "matrix", "os"]).bind Value.arrLen = some 3)
    ∧ ((({} : CIConfig).to_github_actions.getPath
          ["jobs", "test", "strategy", "matrix", "rust"]).bind Value.arrLen = some 2) :=
  ⟨rfl, rfl, rfl, rfl, rfl, rfl⟩

/-- C8: for every configuration the trigger block is fixed to push/main and
pull_request/main and the global environment is exactly the single variable
CARGO_TERM_COLOR=always; neither depends on any field of the model. -/
theorem triggers_and_env_fixed (c : CIConfig) :
    (c.to_github_actions.lookup "on"
      = some (.obj [
          ("push", .obj [("branches", .arr [.str "main"])]),
          ("pull_request", .obj [("branches", .arr [.str "main"])])]))
    ∧ (c.to_github_actions.lookup "env"
      = some (.obj [("CARGO_TERM_COLOR", .str "always")]))
    ∧ (((c.to_github_actions.lookup "env").bind Value.objKeys).map List.length
        = some 1) :=
  ⟨rfl, rfl, rfl⟩

/-- C9: rendering is deterministic — two configurations with equal fields
render to structurally equal documents. -/
theorem render_deterministic (c1 c2 : CIConfig)
    (h1 : c1.rust_version = c2.rust_version)
    (h2 : c1.rust_msrv = c2.rust_msrv)
    (h3 : c1.platforms = c2.platforms) :
    c1.to_github_actions = c2.to_github_actions := by
  obtain ⟨a1, b1, p1⟩ := c1
  obtain ⟨a2, b2, p2⟩ := c2
  simp only at h1 h2 h3
  subst h1; subst h2; subst h3
  rfl

/-- Witness for C9: determinism applied to two identical concrete
configurations. -/
theorem render_deterministic_witness :
    ({ rust_version := "stable", rust_msrv := "stable",
       platforms := ["ubuntu-latest"] } : CIConfig).to_github_actions
      = ({ rust_version := "stable", rust_msrv := "stable",
           platforms := ["ubuntu-latest"] } : CIConfig).to_github_actions :=
  render_deterministic _ _ rfl rfl rfl

/-- C4: dispatch behavior of the CLI — any command other than generate and
validate prints an unknown-command message and exits 1; validate prints the
not-yet-implemented stub and exits 0; a missing command argument prints the
module usage docstring and exits 1. -/
theorem cli_dispatch :
    (∀ argv0 cmd args, cmd ≠ "generate" → cmd ≠ "validate" →
      CiCd.main (argv0 :: cmd :: args)
        = (1, [Effect.print ("Unknown command: " ++ cmd)]))
    ∧ (∀ argv0 args, CiCd.main (argv0 :: "validate" :: args)
        = (0, [Effect.print "Validation not yet implemented"]))
    ∧ (∀ argv0, CiCd.main [argv0] = (1, [Effect.print moduleDoc]))
    ∧ CiCd.main [] = (1, [Effect.print moduleDoc]) := by
  refine ⟨?_, fun argv0 args => rfl, fun argv0 => rfl, rfl⟩
  intro argv0 cmd args h1 h2
  simp [CiCd.main, h1, h2]

/-- Witness for C4: the unknown command "frobnicate" yields exit code 1 and
the unknown-command message. -/
theorem cli_dispatch_witness :
    CiCd.main ["ci-cd.py", "frobnicate"]
      = (1, [Effect.print "Unknown command: frobnicate"]) :=
  cli_dispatch.1 "ci-cd.py" "frobnicate" [] (by decide) (by decide)

/-- C3 divergence: running the generate command renders the document but its
effect trace contains no persistence request to the external writer — the
workflow file the summary announces is never written — and it exits 0
regardless. -/
theorem generate_requests_no_persist :
    ((CiCd.main ["ci-cd.py", "generate"]).2.any Effect.isPersist = false)
    ∧ (CiCd.main ["ci-cd.py", "generate"]).1 = 0 :=
  ⟨rfl, rfl⟩

/-- C10: the generate command's full behavior — for any output path the trace
of generate_workflow is exactly one parent-directory creation followed by the
three summary prints (never a persistence request), and the generate command
runs it on the fixed workflow path and returns 0. -/
theorem generate_frame_effects :
    (∀ path, generate_workflow path
      = [Effect.mkdirParentsOf path,
         Effect.print
           "Generated CI configuration for: ubuntu-latest, macos-latest, windows-latest",
         Effect.print "Rust versions: stable, MSRV: 1.70.0",
         Effect.print ("Output would be written to: " ++ path)])
    ∧ (CiCd.main ["ci-cd.py", "generate"]
      = (0, [Effect.mkdirParentsOf ".github/workflows/ci.yml",
             Effect.print
               "Generated CI configuration for: ubuntu-latest, macos-latest, windows-latest",
             Effect.print "Rust versions: stable, MSRV: 1.70.0",
             Effect.print "Output would be written to: .github/workflows/ci.yml"]))
    ∧ ((generate_workflow ".github/workflows/ci.yml").any Effect.isPersist
        = false) :=
  ⟨fun _ => rfl, rfl, rfl⟩
